import Mathlib

/-!
Verification model of the express-jobly repository's core layer:
the partial-update SQL compiler (`helpers/sql.js`), the filtered list
queries of the Company and Job repositories (`models/company.js`,
`models/job.js`), the create/update operations, and the user routes
(`routes/users.js`).

JavaScript objects used as field mappings are embedded as insertion-ordered
association lists; machine interaction with the storage collaborator is made
explicit as an event list (statements issued) plus a database state
(a list of rows); thrown errors become an `Except` error result.
SQL text is reproduced with whitespace normalized to single spaces.
-/

/-- JavaScript values as they appear in request payloads: strings, numbers
(integral in every use in this repository), booleans and `null`. -/
inductive JSVal where
  | str (s : String)
  | num (n : Int)
  | bool (b : Bool)
  | null
deriving DecidableEq, Repr

/-- Values pushed into `queryValues` for a parameterized statement. -/
inductive SqlValue where
  | int (n : Int)
  | str (s : String)
deriving DecidableEq, Repr

/-- Error taxonomy as realized by the repository's error classes
(`expressError.js`): BadRequestError (400), NotFoundError (404),
ForbiddenError (403), UnauthorizedError (401); `storage` stands for a raw
storage-collaborator failure that no code in the repository classifies. -/
inductive Err where
  | badRequest (msg : String)
  | notFound (msg : String)
  | forbidden (msg : String)
  | unauthorized (msg : String)
  | storage (msg : String)
deriving DecidableEq, Repr

/-- Observable build/query events, in program order: a single predicate
clause being constructed and pushed, the conjunctive WHERE fragment being
constructed by the join, and a parameterized statement being issued to the
storage layer (with its number of positional values). -/
inductive Ev where
  | push (clause : String)
  | whereFragment (frag : String)
  | query (stmt : String) (nvals : Nat)
deriving DecidableEq, Repr

/-- Column-name resolution `jsToSql[colName] || colName` of `helpers/sql.js`
line 29: the physical column when the mapping has a truthy entry for the
field, the field name itself otherwise. -/
def colFor (jsToSql : List (String × String)) (colName : String) : String :=
  match jsToSql.lookup colName with
  | some c => if c = "" then colName else c
  | none => colName

/-- Output of `sqlForPartialUpdate`: the source returns
`setCols: cols.join(", ")` and `values: Object.values(dataToUpdate)`;
the pre-join fragment list `cols` is kept alongside. -/
structure SetClause where
  cols : List String
  setCols : String
  values : List JSVal
deriving DecidableEq, Repr

/-- Embedding of `sqlForPartialUpdate(dataToUpdate, jsToSql)`
(`helpers/sql.js` lines 23-36). `dataToUpdate` is the insertion-ordered
field mapping; an empty mapping throws `BadRequestError("No data")`;
otherwise each field yields a fragment `"col"=$i` with `i` the 1-based
position, and the value list is the mapping's values in the same order. -/
def sqlForPartialUpdate (dataToUpdate : List (String × JSVal))
    (jsToSql : List (String × String)) : Except Err SetClause :=
  let keys := dataToUpdate.map Prod.fst
  if keys.length = 0 then .error (.badRequest "No data")
  else
    let cols := dataToUpdate.enum.map (fun p =>
      "\"" ++ colFor jsToSql p.2.1 ++ "\"=$" ++ toString (p.1 + 1))
    .ok { cols := cols
          setCols := String.intercalate ", " cols
          values := dataToUpdate.map Prod.snd }

/-- Row of the `companies` table, in the public shape the SELECTs return. -/
structure CompanyRow where
  handle : String
  name : String
  description : String
  numEmployees : Option Int
  logoUrl : Option String
deriving DecidableEq, Repr

/-- Optional filters accepted by `Company.findAll` (`models/company.js`
line 69): `minEmployees`, `maxEmployees`, `name`; `none` is JavaScript
`undefined` (field absent). -/
structure CompanyFilters where
  minEmployees : Option Int := none
  maxEmployees : Option Int := none
  name : Option String := none
deriving DecidableEq, Repr

/-- Structured reading of the three WHERE clauses `Company.findAll` can
push, paired one-for-one with the clause strings the source builds. -/
inductive CompanyPred where
  | numEmployeesGe (v : Int)
  | numEmployeesLe (v : Int)
  | nameILike (pat : String)
deriving DecidableEq, Repr

/-- Case-insensitive containment: the storage collaborator's evaluation of
`col ILIKE '%v%'` on a non-null column value, per the contract of spec §4.2
(case-insensitive substring match; pattern metacharacters inside `v` are not
modelled, no use in the repository produces them). -/
def containsCI (hay v : String) : Bool :=
  decide (List.IsInfix (v.data.map Char.toLower) (hay.data.map Char.toLower))

/-- Row satisfaction for a company predicate, with SQL comparison semantics
on nullable columns: a comparison against NULL is not true, so the row is
filtered out. -/
def CompanyPred.holdsFor : CompanyPred → CompanyRow → Bool
  | .numEmployeesGe v, r =>
      match r.numEmployees with
      | some n => decide (v ≤ n)
      | none => false
  | .numEmployeesLe v, r =>
      match r.numEmployees with
      | some n => decide (n ≤ v)
      | none => false
  | .nameILike pat, r => containsCI r.name pat

/-- Base SELECT of `Company.findAll` (whitespace normalized). -/
def companyBaseSelect : String :=
  "SELECT handle, name, description, num_employees AS \"numEmployees\", logo_url AS \"logoUrl\" FROM companies"

deriving instance DecidableEq for Except

/-- Everything `Company.findAll` builds before touching the storage layer:
the pushed clause strings with their structured readings, the positional
values, the observable events in program order, and either the final
statement text or the thrown error. -/
structure CompanyBuild where
  whereClauses : List String
  preds : List CompanyPred
  queryValues : List SqlValue
  events : List Ev
  result : Except Err String
deriving DecidableEq, Repr

/-- Embedding of the statement-building part of `Company.findAll(filters)`
(`models/company.js` lines 59-95): push a clause and a value for
`minEmployees`, then `maxEmployees`, then a truthy `name` (the empty string
is falsy and contributes nothing); then, when both bounds are present and
`minEmployees > maxEmployees`, throw `BadRequestError` before joining the
conjunctive WHERE fragment and before issuing the query; otherwise append
the WHERE fragment when any clause exists, append `ORDER BY name`, and
issue the statement. -/
def companyFindAllBuild (filters : CompanyFilters) : CompanyBuild := Id.run do
  let mut whereClauses : List String := []
  let mut preds : List CompanyPred := []
  let mut queryValues : List SqlValue := []
  let mut events : List Ev := []
  match filters.minEmployees with
  | some v =>
      queryValues := queryValues ++ [.int v]
      let c := "num_employees >= $" ++ toString queryValues.length
      whereClauses := whereClauses ++ [c]
      preds := preds ++ [.numEmployeesGe v]
      events := events ++ [.push c]
  | none => pure ()
  match filters.maxEmployees with
  | some v =>
      queryValues := queryValues ++ [.int v]
      let c := "num_employees <= $" ++ toString queryValues.length
      whereClauses := whereClauses ++ [c]
      preds := preds ++ [.numEmployeesLe v]
      events := events ++ [.push c]
  | none => pure ()
  match filters.name with
  | some s =>
      if s ≠ "" then
        queryValues := queryValues ++ [.str ("%" ++ s ++ "%")]
        let c := "name ILIKE $" ++ toString queryValues.length
        whereClauses := whereClauses ++ [c]
        preds := preds ++ [.nameILike s]
        events := events ++ [.push c]
  | none => pure ()
  match filters.minEmployees, filters.maxEmployees with
  | some mn, some mx =>
      if mx < mn then
        return { whereClauses, preds, queryValues, events,
                 result := .error (.badRequest "minEmployees cannot be greater than maxEmployees") }
  | _, _ => pure ()
  let mut query := companyBaseSelect
  if whereClauses.length > 0 then
    let frag := " WHERE " ++ String.intercalate " AND " whereClauses
    query := query ++ frag
    events := events ++ [.whereFragment frag]
  query := query ++ " ORDER BY name"
  events := events ++ [.query query queryValues.length]
  return { whereClauses, preds, queryValues, events, result := .ok query }

/-- Insertion into a list sorted by `le`. -/
def insertSorted (le : α → α → Bool) (a : α) : List α → List α
  | [] => [a]
  | b :: bs => if le a b then a :: b :: bs else b :: insertSorted le a bs

/-- Insertion sort by `le`; models the storage collaborator's ORDER BY. -/
def sortByKey (le : α → α → Bool) : List α → List α
  | [] => []
  | a :: as => insertSorted le a (sortByKey le as)

/-- ORDER BY name of `Company.findAll`. -/
def sortCompanies (rows : List CompanyRow) : List CompanyRow :=
  sortByKey (fun a b => decide (a.name ≤ b.name)) rows

/-- Full `Company.findAll`: the built statement executed by the storage
collaborator over a database state `db` — the rows satisfying every pushed
predicate, ordered by name; the throw short-circuits before any query. -/
def companyFindAll (filters : CompanyFilters) (db : List CompanyRow) :
    Except Err (List CompanyRow) :=
  let b := companyFindAllBuild filters
  match b.result with
  | .error e => .error e
  | .ok _ => .ok (sortCompanies (db.filter (fun r => b.preds.all (fun p => p.holdsFor r))))

/-- Row of the `jobs` table, in the public shape the SELECTs return.
`equity` is a NUMERIC in [0,1], held exactly as a rational; `none` is NULL. -/
structure JobRow where
  id : Int
  title : Option String
  salary : Option Int
  equity : Option Rat
  companyHandle : String
deriving DecidableEq, Repr

/-- Optional filters destructured by `Job.findAll` (`models/job.js`
line 38). `hasEquity` keeps the raw JavaScript value, because the source
tests `hasEquity === true` by strict equality. -/
structure JobFilters where
  title : Option String := none
  minSalary : Option Int := none
  hasEquity : Option JSVal := none
deriving DecidableEq, Repr

/-- Structured reading of the three WHERE clauses `Job.findAll` can push. -/
inductive JobPred where
  | titleILike (pat : String)
  | salaryGe (v : Int)
  | equityGtZero
deriving DecidableEq, Repr

/-- Row satisfaction for a job predicate, with SQL semantics on nullable
columns: a NULL title never matches ILIKE, a NULL salary fails `>=`, and a
NULL equity fails `equity > 0`. -/
def JobPred.holdsFor : JobPred → JobRow → Bool
  | .titleILike pat, r =>
      match r.title with
      | some t => containsCI t pat
      | none => false
  | .salaryGe v, r =>
      match r.salary with
      | some s => decide (v ≤ s)
      | none => false
  | .equityGtZero, r =>
      match r.equity with
      | some e => decide (0 < e)
      | none => false

/-- Base SELECT of `Job.findAll` (whitespace normalized). -/
def jobBaseSelect : String :=
  "SELECT id, title, salary, equity, company_handle AS \"companyHandle\" FROM jobs"

/-- Everything `Job.findAll` builds before touching the storage layer. -/
structure JobBuild where
  whereClauses : List String
  preds : List JobPred
  queryValues : List SqlValue
  events : List Ev
  result : Except Err String
deriving DecidableEq, Repr

/-- Embedding of the statement-building part of `Job.findAll(filters)`
(`models/job.js` lines 38-63): push a clause and a value for a `title`
that is not undefined (even the empty string), then for `minSalary`; when
`hasEquity` is strictly the boolean `true`, push the clause `equity > 0`
with no positional value; then append the WHERE fragment when any clause
exists, append `ORDER BY id`, and issue the statement. This builder never
throws. -/
def jobFindAllBuild (filters : JobFilters) : JobBuild := Id.run do
  let mut whereClauses : List String := []
  let mut preds : List JobPred := []
  let mut queryValues : List SqlValue := []
  let mut events : List Ev := []
  match filters.title with
  | some s =>
      queryValues := queryValues ++ [.str ("%" ++ s ++ "%")]
      let c := "title ILIKE $" ++ toString queryValues.length
      whereClauses := whereClauses ++ [c]
      preds := preds ++ [.titleILike s]
      events := events ++ [.push c]
  | none => pure ()
  match filters.minSalary with
  | some v =>
      queryValues := queryValues ++ [.int v]
      let c := "salary >= $" ++ toString queryValues.length
      whereClauses := whereClauses ++ [c]
      preds := preds ++ [.salaryGe v]
      events := events ++ [.push c]
  | none => pure ()
  if filters.hasEquity = some (.bool true) then
    let c := "equity > 0"
    whereClauses := whereClauses ++ [c]
    preds := preds ++ [.equityGtZero]
    events := events ++ [.push c]
  let mut query := jobBaseSelect
  if whereClauses.length > 0 then
    let frag := " WHERE " ++ String.intercalate " AND " whereClauses
    query := query ++ frag
    events := events ++ [.whereFragment frag]
  query := query ++ " ORDER BY id"
  events := events ++ [.query query queryValues.length]
  return { whereClauses, preds, queryValues, events, result := .ok query }

/-- ORDER BY id of `Job.findAll`. -/
def sortJobs (rows : List JobRow) : List JobRow :=
  sortByKey (fun a b => decide (a.id ≤ b.id)) rows

/-- Full `Job.findAll`: the built statement executed by the storage
collaborator over a database state `db` — the rows satisfying every pushed
predicate, ordered by id. -/
def jobFindAll (filters : JobFilters) (db : List JobRow) :
    Except Err (List JobRow) :=
  let b := jobFindAllBuild filters
  match b.result with
  | .error e => .error e
  | .ok _ => .ok (sortJobs (db.filter (fun r => b.preds.all (fun p => p.holdsFor r))))

/-- Column mapping passed by `Company.update` (`models/company.js`
lines 159-162). -/
def companyJsToSql : List (String × String) :=
  [("numEmployees", "num_employees"), ("logoUrl", "logo_url")]

/-- Application of one SET assignment to a company row: the storage
collaborator's execution of the generated `"col"=$i` assignments, keyed by
the logical field names `Company.update` accepts. -/
def setCompanyField (r : CompanyRow) : String × JSVal → CompanyRow
  | ("name", .str s) => { r with name := s }
  | ("description", .str s) => { r with description := s }
  | ("numEmployees", .num n) => { r with numEmployees := some n }
  | ("numEmployees", .null) => { r with numEmployees := none }
  | ("logoUrl", .str s) => { r with logoUrl := some s }
  | ("logoUrl", .null) => { r with logoUrl := none }
  | _ => r

/-- SET assignments applied left to right in mapping-insertion order. -/
def applyCompanyUpdate (r : CompanyRow) (data : List (String × JSVal)) : CompanyRow :=
  data.foldl setCompanyField r

/-- Outcome of a Company repository operation: the statements issued to the
storage layer, the database state afterwards, and the returned row or the
thrown error. -/
structure CompanyOpOut where
  events : List Ev
  db : List CompanyRow
  result : Except Err CompanyRow
deriving DecidableEq, Repr

/-- Embedding of `Company.update(handle, data)` (`models/company.js`
lines 156-179): `sqlForPartialUpdate` runs first, so an empty payload
throws `BadRequestError("No data")` with no statement issued and no state
change; otherwise the UPDATE statement is issued (with one extra
placeholder for the handle), the matching row is rewritten, and an absent
handle yields `NotFoundError`. -/
def companyUpdate (handle : String) (data : List (String × JSVal))
    (db : List CompanyRow) : CompanyOpOut :=
  match sqlForPartialUpdate data companyJsToSql with
  | .error e => { events := [], db := db, result := .error e }
  | .ok sc =>
      let handleVarIdx := "$" ++ toString (sc.values.length + 1)
      let querySql := "UPDATE companies SET " ++ sc.setCols
        ++ " WHERE handle = " ++ handleVarIdx
        ++ " RETURNING handle, name, description, num_employees AS \"numEmployees\", logo_url AS \"logoUrl\""
      let events := [Ev.query querySql (sc.values.length + 1)]
      match db.find? (fun r => r.handle == handle) with
      | none => { events, db, result := .error (.notFound ("No company: " ++ handle)) }
      | some row =>
          let row' := applyCompanyUpdate row data
          { events
            db := db.map (fun r => if r.handle == handle then row' else r)
            result := .ok row' }

/-- Fields of a `Company.create` request. -/
structure CompanyData where
  handle : String
  name : String
  description : String
  numEmployees : Option Int
  logoUrl : Option String
deriving DecidableEq, Repr

/-- Duplicate pre-check SELECT of `Company.create` (whitespace normalized). -/
def companyDupCheckSql : String :=
  "SELECT handle FROM companies WHERE handle = $1"

/-- INSERT statement of `Company.create` (whitespace normalized). -/
def companyInsertSql : String :=
  "INSERT INTO companies (handle, name, description, num_employees, logo_url) VALUES ($1, $2, $3, $4, $5) RETURNING handle, name, description, num_employees AS \"numEmployees\", logo_url AS \"logoUrl\""

/-- Embedding of `Company.create(data)` (`models/company.js` lines 19-45):
first the duplicate-check SELECT; when a row with the same handle exists,
throw `BadRequestError("Duplicate company: <handle>")` with no INSERT
issued and the database unchanged; otherwise issue the INSERT, append the
new row, and return it. -/
def companyCreate (data : CompanyData) (db : List CompanyRow) : CompanyOpOut :=
  let ev1 := [Ev.query companyDupCheckSql 1]
  match db.find? (fun r => r.handle == data.handle) with
  | some _ =>
      { events := ev1, db
        result := .error (.badRequest ("Duplicate company: " ++ data.handle)) }
  | none =>
      let row : CompanyRow :=
        { handle := data.handle, name := data.name, description := data.description
          numEmployees := data.numEmployees, logoUrl := data.logoUrl }
      { events := ev1 ++ [Ev.query companyInsertSql 5]
        db := db ++ [row]
        result := .ok row }

/-- Fields of a `Job.create` request. -/
structure JobData where
  title : String
  salary : Option Int
  equity : Option Rat
  companyHandle : String
deriving DecidableEq, Repr

/-- INSERT statement of `Job.create` (whitespace normalized). -/
def jobInsertSql : String :=
  "INSERT INTO jobs (title, salary, equity, company_handle) VALUES ($1, $2, $3, $4) RETURNING id, title, salary, equity, company_handle AS \"companyHandle\""

/-- Message of the storage collaborator's foreign-key constraint violation
on `jobs.company_handle`, as the driver reports it. -/
def fkViolationMsg : String :=
  "insert or update on table \"jobs\" violates foreign key constraint \"jobs_company_handle_fkey\""

/-- Outcome of a Job repository operation. -/
structure JobOpOut where
  events : List Ev
  jobs : List JobRow
  result : Except Err JobRow
deriving DecidableEq, Repr

/-- Embedding of `Job.create(data)` (`models/job.js` lines 19-26): a single
INSERT with no pre-check and no error translation. The storage collaborator
enforces the foreign key on `company_handle`: when the handle resolves, the
row is inserted with a fresh server-generated id; when it does not, the
raw constraint-violation failure propagates out of `create` unclassified,
because the source has no catch around the query. -/
def jobCreate (data : JobData) (companies : List CompanyRow)
    (jobs : List JobRow) : JobOpOut :=
  let events := [Ev.query jobInsertSql 4]
  if companies.any (fun c => c.handle == data.companyHandle) then
    let newId := (jobs.map (fun j => j.id)).foldl max 0 + 1
    let row : JobRow :=
      { id := newId, title := some data.title, salary := data.salary
        equity := data.equity, companyHandle := data.companyHandle }
    { events, jobs := jobs ++ [row], result := .ok row }
  else
    { events, jobs, result := .error (.storage fkViolationMsg) }

/-- Identity carried by a verified token: username and admin flag. -/
structure Identity where
  username : String
  isAdmin : Bool
deriving DecidableEq, Repr

/-- Row of the `users` table in its public shape (the password hash is
never part of a returned record). -/
structure UserRow where
  username : String
  firstName : String
  lastName : String
  email : String
  isAdmin : Bool
deriving DecidableEq, Repr

/-- Modelled from the spec: `ensureCorrectUserOrAdmin` lives in
`middleware/auth`, which is not among the provided sources (only its
callers in `routes/users.js` are). Spec §4.4: authentication is confirmed
first — a caller with no valid, non-expired credential fails with
Unauthenticated; only then is the role/ownership check evaluated — the
caller must carry the admin flag or match the target username, else
Forbidden. -/
def ensureCorrectUserOrAdmin (caller : Option Identity) (target : String) :
    Except Err Unit :=
  match caller with
  | none => .error (.unauthorized "Unauthorized")
  | some u =>
      if u.isAdmin || u.username == target then .ok ()
      else .error (.forbidden "Unauthorized")

/-- Modelled from the spec: `User.get` of `models/user.js` is not among the
provided sources. Spec §4.3: get(key) fetches exactly one entity by primary
key and fails with NotFound when no row matches. -/
def userGet (username : String) (users : List UserRow) : Except Err UserRow :=
  match users.find? (fun u => u.username == username) with
  | some u => .ok u
  | none => .error (.notFound ("No user: " ++ username))

/-- Modelled from the spec: `User.remove` of `models/user.js` is not among
the provided sources. Spec §4.3: remove(key) deletes by primary key and
fails with NotFound if zero rows were affected. -/
def userRemove (username : String) (users : List UserRow) :
    List UserRow × Except Err Unit :=
  if users.any (fun u => u.username == username) then
    (users.filter (fun u => u.username != username), .ok ())
  else
    (users, .error (.notFound ("No user: " ++ username)))

/-- Embedding of `GET /users/:username` (`routes/users.js` lines 99-110):
the `ensureCorrectUserOrAdmin` gate runs before the handler; the handler
re-checks ownership (throwing `ForbiddenError` for a non-admin caller whose
username differs from the target) and then returns `User.get(username)`.
The gate guarantees a caller before the handler reads `res.locals.user`. -/
def getUserRoute (caller : Option Identity) (target : String)
    (users : List UserRow) : Except Err UserRow :=
  match ensureCorrectUserOrAdmin caller target with
  | .error e => .error e
  | .ok _ =>
      match caller with
      | none => .error (.storage "TypeError: res.locals.user is undefined")
      | some u =>
          if u.username != target && !u.isAdmin then
            .error (.forbidden "Unauthorized to view this user.")
          else userGet target users

/-- Embedding of `DELETE /users/:username` (`routes/users.js`
lines 148-155): the `ensureCorrectUserOrAdmin` gate runs before the
handler; the handler calls `User.remove(username)` and answers with the
deleted username. -/
def deleteUserRoute (caller : Option Identity) (target : String)
    (users : List UserRow) : List UserRow × Except Err String :=
  match ensureCorrectUserOrAdmin caller target with
  | .error e => (users, .error e)
  | .ok _ =>
      match (userRemove target users).2 with
      | .error e => ((userRemove target users).1, .error e)
      | .ok _ => ((userRemove target users).1, .ok target)

/-- Body of a registration request to `POST /users`, after schema
validation: the required fields plus whatever `isAdmin` value the caller
chose to send (`none` when absent). -/
structure RegisterBody where
  username : String
  password : String
  firstName : String
  lastName : String
  email : String
  isAdmin : Option Bool := none
deriving DecidableEq, Repr

/-- Data passed to `User.register` by a route: the body fields with a
definite `isAdmin` flag. -/
structure RegisterData where
  username : String
  password : String
  firstName : String
  lastName : String
  email : String
  isAdmin : Bool
deriving DecidableEq, Repr

/-- Modelled from the spec: `User.register` of `models/user.js` is not
among the provided sources. Spec §4.3: create validates uniqueness of the
identifying key with an explicit pre-check and fails with AlreadyExists
when the username is taken; otherwise it stores the user with the supplied
fields (hashing the password, which never appears in the returned public
shape) and returns the created record. -/
def userRegister (data : RegisterData) (users : List UserRow) :
    List UserRow × Except Err UserRow :=
  if users.any (fun u => u.username == data.username) then
    (users, .error (.badRequest ("Duplicate username: " ++ data.username)))
  else
    let u : UserRow :=
      { username := data.username, firstName := data.firstName
        lastName := data.lastName, email := data.email, isAdmin := data.isAdmin }
    (users ++ [u], .ok u)

/-- Embedding of the open registration endpoint `POST /users`
(`routes/users.js` lines 31-48): the handler spreads the request body and
overrides `isAdmin` to `false` before calling `User.register`, so whatever
`isAdmin` the body carried is discarded. -/
def postUsersRoute (body : RegisterBody) (users : List UserRow) :
    List UserRow × Except Err UserRow :=
  let data : RegisterData :=
    { username := body.username, password := body.password
      firstName := body.firstName, lastName := body.lastName
      email := body.email, isAdmin := false }
  userRegister data users

/-- Number of filters `Company.findAll` applies: each present numeric bound
and a truthy (present, non-empty) name. -/
def companyAppliedCount (f : CompanyFilters) : Nat :=
  (if f.minEmployees.isSome then 1 else 0)
    + (if f.maxEmployees.isSome then 1 else 0)
    + (match f.name with
       | some s => if s = "" then 0 else 1
       | none => 0)

/-- Number of filters `Job.findAll` applies: a present title, a present
minSalary, and `hasEquity` strictly equal to the boolean `true`. -/
def jobAppliedCount (f : JobFilters) : Nat :=
  (if f.title.isSome then 1 else 0)
    + (if f.minSalary.isSome then 1 else 0)
    + (if f.hasEquity = some (JSVal.bool true) then 1 else 0)

/-- Number of positional placeholders `Job.findAll` generates: one each for
title and minSalary; the `equity > 0` clause carries none. -/
def jobParamCount (f : JobFilters) : Nat :=
  (if f.title.isSome then 1 else 0)
    + (if f.minSalary.isSome then 1 else 0)

/-- Filter object with only `hasEquity: true`. -/
def hasEquityOnlyFilter : JobFilters :=
  { title := none, minSalary := none, hasEquity := some (JSVal.bool true) }

/-- Job-creation request whose company handle resolves to no company. -/
def danglingJobData : JobData :=
  { title := "New Job", salary := some 100000, equity := some 1
    companyHandle := "nope" }

/-- Seed company with handle `c1`. -/
def seedCompanyC1 : CompanyRow :=
  { handle := "c1", name := "C1Ltd", description := "d"
    numEmployees := some 1, logoUrl := none }

/-- Creation request colliding with the seed company's handle. -/
def dupCompanyData : CompanyData :=
  { handle := "c1", name := "New", description := "New Description"
    numEmployees := some 1, logoUrl := some "http://new.img" }

/-- Concrete three-field update payload, including a null value and fields
with and without a physical-column mapping. -/
def updateData3 : List (String × JSVal) :=
  [("firstName", JSVal.str "Aliya"), ("age", JSVal.num 32), ("logoUrl", JSVal.null)]

/-- Concrete logical-to-physical column mapping. -/
def userJsToSqlMap : List (String × String) :=
  [("firstName", "first_name"), ("logoUrl", "logo_url")]

/-- Expected compiler output for `updateData3` under `userJsToSqlMap`. -/
def setClause3 : SetClause :=
  { cols := ["\"first_name\"=$1", "\"age\"=$2", "\"logo_url\"=$3"]
    setCols := "\"first_name\"=$1, \"age\"=$2, \"logo_url\"=$3"
    values := [JSVal.str "Aliya", JSVal.num 32, JSVal.null] }

/-- Seed job with strictly positive equity. -/
def jobEquityPos : JobRow :=
  { id := 1, title := some "Retail Pharmacist", salary := some 100000
    equity := some 1, companyHandle := "c1" }

/-- Seed job with zero equity. -/
def jobEquityZero : JobRow :=
  { id := 2, title := some "Hospital Pharmacist", salary := some 150000
    equity := some 0, companyHandle := "c2" }

/-- Seed job with null equity. -/
def jobEquityNull : JobRow :=
  { id := 3, title := some "Nuclear Physicist", salary := some 200000
    equity := none, companyHandle := "c3" }

/-- Seed jobs table: positive, zero and null equity. -/
def seedJobs : List JobRow := [jobEquityPos, jobEquityZero, jobEquityNull]

/-- Registration body that tries to claim the admin flag. -/
def regBodyAdminTrue : RegisterBody :=
  { username := "u-new", password := "password-new", firstName := "First-new"
    lastName := "Last-newL", email := "new@email.com", isAdmin := some true }

/-- Public record the registration of `regBodyAdminTrue` creates. -/
def regCreatedUser : UserRow :=
  { username := "u-new", firstName := "First-new", lastName := "Last-newL"
    email := "new@email.com", isAdmin := false }

/-- Membership in an insertion is membership in the inserted element or the
original list. -/
theorem mem_insertSorted (le : α → α → Bool) (a x : α) (l : List α) :
    x ∈ insertSorted le a l ↔ x = a ∨ x ∈ l := by
  induction l with
  | nil => simp [insertSorted]
  | cons b bs ih =>
      simp only [insertSorted]
      split
      · simp [List.mem_cons]
      · simp [List.mem_cons, ih]
        tauto

/-- Sorting preserves membership. -/
theorem mem_sortByKey (le : α → α → Bool) (x : α) (l : List α) :
    x ∈ sortByKey le l ↔ x ∈ l := by
  induction l with
  | nil => simp [sortByKey]
  | cons a as ih => simp [sortByKey, mem_insertSorted, ih]

/-- The Job builder never throws: its result is always a statement. -/
theorem jobFindAllBuild_ok (f : JobFilters) :
    ∃ q, (jobFindAllBuild f).result = .ok q := by
  obtain ⟨t, m, h⟩ := f
  by_cases he : h = some (JSVal.bool true) <;>
    cases t <;> cases m <;>
      simp [jobFindAllBuild, Id.run, he]

/-- Evaluation of `Job.findAll`: the rows passing every pushed predicate,
ordered by id. -/
theorem jobFindAll_eq (f : JobFilters) (db : List JobRow) :
    jobFindAll f db = .ok (sortJobs (db.filter
      (fun r => (jobFindAllBuild f).preds.all (fun p => p.holdsFor r)))) := by
  obtain ⟨q, hq⟩ := jobFindAllBuild_ok f
  simp [jobFindAll, hq]

/-- With `hasEquity` strictly `true`, the equity predicate is pushed. -/
theorem equityGtZero_mem_preds (f : JobFilters)
    (he : f.hasEquity = some (JSVal.bool true)) :
    JobPred.equityGtZero ∈ (jobFindAllBuild f).preds := by
  obtain ⟨t, m, h⟩ := f
  simp only [JobFilters.hasEquity] at he
  subst he
  cases t <;> cases m <;> simp [jobFindAllBuild, Id.run]

/-- With any `hasEquity` other than strictly `true`, the build is the one
with `hasEquity` absent. -/
theorem jobFindAllBuild_notEquity (t : Option String) (m : Option Int)
    (h : Option JSVal) (he : h ≠ some (JSVal.bool true)) :
    jobFindAllBuild { title := t, minSalary := m, hasEquity := h }
      = jobFindAllBuild { title := t, minSalary := m, hasEquity := none } := by
  cases t <;> cases m <;> simp [jobFindAllBuild, Id.run, he]

/-- Clause and placeholder counts of the Company builder: one clause and
one positional value per applied filter. -/
theorem companyBuild_counts (cf : CompanyFilters) :
    (companyFindAllBuild cf).whereClauses.length = companyAppliedCount cf
    ∧ (companyFindAllBuild cf).queryValues.length = companyAppliedCount cf := by
  obtain ⟨fmn, fmx, fname⟩ := cf
  cases fmn <;> cases fmx <;> rcases fname with _ | s <;>
    simp [companyFindAllBuild, Id.run, companyAppliedCount] <;>
    split_ifs <;> simp_all

/-- Clause and placeholder counts of the Job builder: one clause per
applied filter, but positional values only for title and minSalary. -/
theorem jobBuild_counts (jf : JobFilters) :
    (jobFindAllBuild jf).whereClauses.length = jobAppliedCount jf
    ∧ (jobFindAllBuild jf).queryValues.length = jobParamCount jf := by
  obtain ⟨jt, jm, jh⟩ := jf
  by_cases he : jh = some (JSVal.bool true) <;>
    cases jt <;> cases jm <;>
      simp [jobFindAllBuild, Id.run, jobAppliedCount, jobParamCount, he]

/-- With zero applied filters the Company statement has no WHERE clause. -/
theorem companyBuild_zero (cf : CompanyFilters) (h : companyAppliedCount cf = 0) :
    (companyFindAllBuild cf).result = .ok (companyBaseSelect ++ " ORDER BY name")
    ∧ ∀ frag, Ev.whereFragment frag ∉ (companyFindAllBuild cf).events := by
  obtain ⟨fmn, fmx, fname⟩ := cf
  cases fmn <;> cases fmx <;> rcases fname with _ | s
  all_goals simp [companyAppliedCount] at h
  all_goals simp [companyFindAllBuild, Id.run, h]

/-- With zero applied filters the Job statement has no WHERE clause. -/
theorem jobBuild_zero (jf : JobFilters) (h : jobAppliedCount jf = 0) :
    (jobFindAllBuild jf).result = .ok (jobBaseSelect ++ " ORDER BY id")
    ∧ ∀ frag, Ev.whereFragment frag ∉ (jobFindAllBuild jf).events := by
  obtain ⟨jt, jm, jh⟩ := jf
  by_cases he : jh = some (JSVal.bool true)
  all_goals cases jt <;> cases jm
  all_goals simp [jobAppliedCount, he] at h
  all_goals simp [jobFindAllBuild, Id.run, he]

/-- An empty-string name builds the same statement as an absent name. -/
theorem companyFindAllBuild_emptyName (mn mx : Option Int) :
    companyFindAllBuild { minEmployees := mn, maxEmployees := mx, name := some "" }
      = companyFindAllBuild { minEmployees := mn, maxEmployees := mx, name := none } := by
  cases mn <;> cases mx <;> simp [companyFindAllBuild, Id.run]

/-- An ILIKE pattern built from the empty string matches every non-null
column value. -/
theorem containsCI_empty (t : String) : containsCI t "" = true := by
  simp [containsCI]

/-- Claim C1: for every non-empty field-update mapping with N fields,
`sqlForPartialUpdate` returns exactly N assignment fragments of the form
`"column"=$i` with placeholder indices 1..N contiguous and in
mapping-insertion order, and a parallel value list that is exactly the
mapping's values in order (null being a legal value); for the empty mapping
it throws `BadRequestError("No data")`. -/
theorem sqlForPartialUpdate_contract (data : List (String × JSVal))
    (jsToSql : List (String × String)) :
    (data = [] → sqlForPartialUpdate data jsToSql = .error (.badRequest "No data"))
    ∧ (data ≠ [] → ∃ sc, sqlForPartialUpdate data jsToSql = .ok sc
        ∧ sc.cols.length = data.length
        ∧ sc.values = data.map Prod.snd
        ∧ sc.setCols = String.intercalate ", " sc.cols
        ∧ ∀ i, i < data.length →
            sc.cols.getD i "" =
              "\"" ++ colFor jsToSql (data.getD i ("", JSVal.null)).1 ++ "\"=$"
                ++ toString (i + 1)) := by
  constructor
  · intro h
    subst h
    rfl
  · intro h
    have hok : sqlForPartialUpdate data jsToSql = .ok
        { cols := data.enum.map (fun p =>
            "\"" ++ colFor jsToSql p.2.1 ++ "\"=$" ++ toString (p.1 + 1))
          setCols := String.intercalate ", " (data.enum.map (fun p =>
            "\"" ++ colFor jsToSql p.2.1 ++ "\"=$" ++ toString (p.1 + 1)))
          values := data.map Prod.snd } := by
      simp [sqlForPartialUpdate, List.length_eq_zero, h]
    refine ⟨_, hok, ?_, rfl, rfl, ?_⟩
    · simp
    · intro i hi
      simp [List.getD, List.getElem?_map, List.getElem?_enum,
        List.getElem?_eq_getElem hi]

/-- Witness for C1: on the concrete three-field payload `updateData3` (with
a mapped column, an unmapped column and a null value) the compiler emits
exactly the fragments and values of `setClause3`, and the empty payload is
rejected with "No data". -/
theorem sqlForPartialUpdate_contract_witness :
    (updateData3 ≠ [])
    ∧ sqlForPartialUpdate [] userJsToSqlMap = .error (.badRequest "No data")
    ∧ sqlForPartialUpdate updateData3 userJsToSqlMap = .ok setClause3
    ∧ (∃ sc, sqlForPartialUpdate updateData3 userJsToSqlMap = .ok sc
        ∧ sc.cols.length = updateData3.length
        ∧ sc.values = updateData3.map Prod.snd
        ∧ sc.setCols = String.intercalate ", " sc.cols
        ∧ ∀ i, i < updateData3.length →
            sc.cols.getD i "" =
              "\"" ++ colFor userJsToSqlMap (updateData3.getD i ("", JSVal.null)).1
                ++ "\"=$" ++ toString (i + 1)) :=
  ⟨by decide,
   (sqlForPartialUpdate_contract [] userJsToSqlMap).1 rfl,
   by decide,
   (sqlForPartialUpdate_contract updateData3 userJsToSqlMap).2 (by decide)⟩

/-- Claim C2: when both bounds are present and `minEmployees > maxEmployees`,
`Company.findAll` throws `BadRequestError` with exactly the message
"minEmployees cannot be greater than maxEmployees"; the failure happens
before the conjunctive WHERE predicate fragment is constructed (no
`whereFragment` event) and before any statement is issued to the storage
layer (no `query` event), so `findAll` errors for every database state. -/
theorem companyFindAll_minGtMax_failsFast (f : CompanyFilters) (mn mx : Int)
    (hmin : f.minEmployees = some mn) (hmax : f.maxEmployees = some mx)
    (hlt : mx < mn) :
    (companyFindAllBuild f).result
      = .error (.badRequest "minEmployees cannot be greater than maxEmployees")
    ∧ (∀ frag, Ev.whereFragment frag ∉ (companyFindAllBuild f).events)
    ∧ (∀ stmt n, Ev.query stmt n ∉ (companyFindAllBuild f).events)
    ∧ (∀ db, companyFindAll f db
        = .error (.badRequest "minEmployees cannot be greater than maxEmployees")) := by
  obtain ⟨fmn, fmx, fname⟩ := f
  simp only [CompanyFilters.minEmployees] at hmin
  simp only [CompanyFilters.maxEmployees] at hmax
  subst hmin hmax
  match fname with
  | none => simp [companyFindAll, companyFindAllBuild, Id.run, hlt]
  | some s =>
    by_cases hs : s = "" <;>
      simp [companyFindAll, companyFindAllBuild, Id.run, hlt, hs]

/-- Witness for C2: the filter `minEmployees = 100, maxEmployees = 50`
is rejected with the exact message, before any query. -/
theorem companyFindAll_minGtMax_failsFast_witness :
    (50 : Int) < 100
    ∧ (companyFindAllBuild ⟨some 100, some 50, none⟩).result
        = .error (.badRequest "minEmployees cannot be greater than maxEmployees")
    ∧ companyFindAll ⟨some 100, some 50, none⟩ []
        = .error (.badRequest "minEmployees cannot be greater than maxEmployees") :=
  ⟨by decide,
   (companyFindAll_minGtMax_failsFast ⟨some 100, some 50, none⟩ 100 50 rfl rfl
     (by decide)).1,
   (companyFindAll_minGtMax_failsFast ⟨some 100, some 50, none⟩ 100 50 rfl rfl
     (by decide)).2.2.2 []⟩

/-- Claim C3: when `hasEquity` is strictly `true`, every row `Job.findAll`
returns has equity strictly greater than zero; for any other `hasEquity`
value the result is identical to the result with `hasEquity` absent, and
with no other filters every row (zero or null equity included) is
returned. -/
theorem jobFindAll_hasEquity_contract (t : Option String) (m : Option Int)
    (h : Option JSVal) (db : List JobRow) :
    (h = some (JSVal.bool true) →
      ∀ rows, jobFindAll { title := t, minSalary := m, hasEquity := h } db = .ok rows →
        ∀ r ∈ rows, ∃ e, r.equity = some e ∧ 0 < e)
    ∧ (h ≠ some (JSVal.bool true) →
        jobFindAll { title := t, minSalary := m, hasEquity := h } db
          = jobFindAll { title := t, minSalary := m, hasEquity := none } db)
    ∧ (h ≠ some (JSVal.bool true) →
        jobFindAll { title := none, minSalary := none, hasEquity := h } db
          = .ok (sortJobs db)) := by
  refine ⟨?_, ?_, ?_⟩
  · intro he rows hrows r hr
    rw [jobFindAll_eq] at hrows
    have hmem : JobPred.equityGtZero ∈
        (jobFindAllBuild { title := t, minSalary := m, hasEquity := h }).preds :=
      equityGtZero_mem_preds _ he
    have hrows' : rows = sortJobs (db.filter (fun r =>
        (jobFindAllBuild { title := t, minSalary := m, hasEquity := h }).preds.all
          (fun p => p.holdsFor r))) := by
      exact (Except.ok.injEq _ _).mp hrows.symm
    subst hrows'
    rw [sortJobs, mem_sortByKey, List.mem_filter] at hr
    have hall := hr.2
    rw [List.all_eq_true] at hall
    have hpos := hall _ hmem
    simp only [JobPred.holdsFor] at hpos
    match hre : r.equity with
    | some e =>
        refine ⟨e, rfl, ?_⟩
        rw [hre] at hpos
        simpa using hpos
    | none => rw [hre] at hpos; simp at hpos
  · intro he
    rw [jobFindAll, jobFindAll, jobFindAllBuild_notEquity t m h he]
  · intro he
    have h1 : jobFindAll { title := none, minSalary := none, hasEquity := h } db
        = jobFindAll { title := none, minSalary := none, hasEquity := none } db := by
      rw [jobFindAll, jobFindAll, jobFindAllBuild_notEquity none none h he]
    rw [h1, jobFindAll_eq]
    simp [jobFindAllBuild, Id.run]

/-- Witness for C3: over the seed jobs (equity 1, 0, NULL),
`hasEquity: true` returns only the positive-equity row and its equity is
strictly positive; `hasEquity: false` returns all three rows in id order. -/
theorem jobFindAll_hasEquity_contract_witness :
    jobFindAll ⟨none, none, some (JSVal.bool true)⟩ seedJobs = .ok [jobEquityPos]
    ∧ (∃ e, jobEquityPos.equity = some e ∧ 0 < e)
    ∧ jobFindAll ⟨none, none, some (JSVal.bool false)⟩ seedJobs
      = jobFindAll ⟨none, none, none⟩ seedJobs
    ∧ jobFindAll ⟨none, none, some (JSVal.bool false)⟩ seedJobs = .ok seedJobs :=
  ⟨by decide,
   (jobFindAll_hasEquity_contract none none (some (JSVal.bool true)) seedJobs).1
     rfl [jobEquityPos] (by decide) jobEquityPos (by decide),
   (jobFindAll_hasEquity_contract none none (some (JSVal.bool false)) seedJobs).2.1
     (by decide),
   by
     rw [(jobFindAll_hasEquity_contract none none (some (JSVal.bool false)) seedJobs).2.2
       (by decide)]
     decide⟩

/-- Counterexample for C4: with the single applied filter
`hasEquity: true`, `Job.findAll` pushes exactly one predicate, the inline
clause `equity > 0`, but zero positional placeholders — so an applied
filter does not always contribute one placeholder, refuting the claim at
this concrete input. -/
theorem jobFindAll_hasEquity_placeholder_counterexample :
    (jobFindAllBuild hasEquityOnlyFilter).whereClauses = ["equity > 0"]
    ∧ (jobFindAllBuild hasEquityOnlyFilter).queryValues = []
    ∧ ¬ (jobFindAllBuild hasEquityOnlyFilter).queryValues.length
        = (jobFindAllBuild hasEquityOnlyFilter).whereClauses.length := by
  decide

/-- Claim C4 as amended: each applied filter contributes exactly one
predicate clause; every applied filter except Job's `hasEquity: true` also
contributes exactly one positional placeholder, while `hasEquity: true`
contributes its clause inline with no placeholder; absent filters
contribute nothing; and with zero applied filters the statement is the base
SELECT with ORDER BY and no WHERE fragment at all. -/
theorem findAll_filter_contribution_amended (cf : CompanyFilters) (jf : JobFilters) :
    (companyFindAllBuild cf).whereClauses.length = companyAppliedCount cf
    ∧ (companyFindAllBuild cf).queryValues.length = companyAppliedCount cf
    ∧ (jobFindAllBuild jf).whereClauses.length = jobAppliedCount jf
    ∧ (jobFindAllBuild jf).queryValues.length = jobParamCount jf
    ∧ (companyAppliedCount cf = 0 →
        (companyFindAllBuild cf).result = .ok (companyBaseSelect ++ " ORDER BY name")
        ∧ ∀ frag, Ev.whereFragment frag ∉ (companyFindAllBuild cf).events)
    ∧ (jobAppliedCount jf = 0 →
        (jobFindAllBuild jf).result = .ok (jobBaseSelect ++ " ORDER BY id")
        ∧ ∀ frag, Ev.whereFragment frag ∉ (jobFindAllBuild jf).events) :=
  ⟨(companyBuild_counts cf).1, (companyBuild_counts cf).2,
   (jobBuild_counts jf).1, (jobBuild_counts jf).2,
   companyBuild_zero cf, jobBuild_zero jf⟩

/-- Witness for C4 amended: one clause and one placeholder for a name
filter; one clause and zero placeholders for `hasEquity: true`; and with no
filters at all the Company statement is the bare SELECT with ORDER BY. -/
theorem findAll_filter_contribution_amended_witness :
    (companyFindAllBuild ⟨none, none, some "net"⟩).whereClauses.length
      = companyAppliedCount ⟨none, none, some "net"⟩
    ∧ (jobFindAllBuild hasEquityOnlyFilter).whereClauses.length
        = jobAppliedCount hasEquityOnlyFilter
    ∧ (jobFindAllBuild hasEquityOnlyFilter).queryValues.length
        = jobParamCount hasEquityOnlyFilter
    ∧ companyAppliedCount ⟨none, none, none⟩ = 0
    ∧ (companyFindAllBuild ⟨none, none, none⟩).result
        = .ok (companyBaseSelect ++ " ORDER BY name") :=
  ⟨(findAll_filter_contribution_amended ⟨none, none, some "net"⟩ hasEquityOnlyFilter).1,
   (findAll_filter_contribution_amended ⟨none, none, some "net"⟩ hasEquityOnlyFilter).2.2.1,
   (findAll_filter_contribution_amended ⟨none, none, some "net"⟩ hasEquityOnlyFilter).2.2.2.1,
   by decide,
   ((findAll_filter_contribution_amended ⟨none, none, none⟩ hasEquityOnlyFilter).2.2.2.2.1
     (by decide)).1⟩

/-- Claim C5: for every handle (existing in the database or not),
`Company.update` with an empty payload fails with
`BadRequestError("No data")`, issues no statement to the storage layer, and
leaves the database unchanged — the empty-payload check precedes the
existence check and any database access. -/
theorem companyUpdate_emptyData_rejectedFirst (handle : String)
    (db : List CompanyRow) :
    companyUpdate handle [] db
      = { events := [], db := db, result := .error (.badRequest "No data") } := by
  rfl

/-- Claim C6: when a row with the requested handle already exists,
`Company.create` fails with `BadRequestError("Duplicate company: <handle>")`
(the repository's realization of AlreadyExists), issues only the
duplicate-check SELECT and no INSERT, and leaves the database — hence the
existing row — unchanged. -/
theorem companyCreate_duplicate_rejected (data : CompanyData)
    (db : List CompanyRow) (row : CompanyRow)
    (hrow : row ∈ db) (hh : row.handle = data.handle) :
    (companyCreate data db).result
      = .error (.badRequest ("Duplicate company: " ++ data.handle))
    ∧ (companyCreate data db).db = db
    ∧ (companyCreate data db).events = [Ev.query companyDupCheckSql 1] := by
  match hf : db.find? (fun r => r.handle == data.handle) with
  | some _ => simp [companyCreate, hf]
  | none =>
      rw [List.find?_eq_none] at hf
      exact absurd (by simp [hh]) (hf row hrow)

/-- Witness for C6: creating `dupCompanyData` over a database already
holding handle `c1` fails with the duplicate error and changes nothing. -/
theorem companyCreate_duplicate_rejected_witness :
    seedCompanyC1 ∈ [seedCompanyC1]
    ∧ seedCompanyC1.handle = dupCompanyData.handle
    ∧ (companyCreate dupCompanyData [seedCompanyC1]).result
        = .error (.badRequest ("Duplicate company: " ++ dupCompanyData.handle))
    ∧ (companyCreate dupCompanyData [seedCompanyC1]).db = [seedCompanyC1] :=
  ⟨by decide, by decide,
   (companyCreate_duplicate_rejected dupCompanyData [seedCompanyC1] seedCompanyC1
     (by decide) (by decide)).1,
   (companyCreate_duplicate_rejected dupCompanyData [seedCompanyC1] seedCompanyC1
     (by decide) (by decide)).2.1⟩

/-- Claim C7 (divergence): `Job.create` with a company handle that resolves
to no company surfaces the storage layer's raw foreign-key constraint
violation, not a `BadRequestError` — contradicting the doc comment on
`Job.create` ("Throws BadRequestError if companyHandle does not exist") and
spec §3's requirement that this violation be a client error. -/
theorem jobCreate_fkViolation_unclassified :
    (jobCreate danglingJobData [seedCompanyC1] []).result
      = .error (.storage fkViolationMsg)
    ∧ ∀ msg, (jobCreate danglingJobData [seedCompanyC1] []).result
        ≠ .error (.badRequest msg) := by
  constructor
  · decide
  · intro msg
    simp [jobCreate, danglingJobData, seedCompanyC1]

/-- Claim C8: on the routes guarded by `ensureCorrectUserOrAdmin`
(GET and DELETE /users/:username), a caller with no valid credential always
receives the Unauthenticated error and never a Forbidden error, whatever
username it targets and whatever users exist — the authentication check is
evaluated before the role/ownership check. -/
theorem userRoutes_unauthenticated_precedence (target : String)
    (users : List UserRow) :
    getUserRoute none target users = .error (.unauthorized "Unauthorized")
    ∧ (∀ msg, getUserRoute none target users ≠ .error (.forbidden msg))
    ∧ (deleteUserRoute none target users).2 = .error (.unauthorized "Unauthorized")
    ∧ (∀ msg, (deleteUserRoute none target users).2 ≠ .error (.forbidden msg))
    ∧ (deleteUserRoute none target users).1 = users := by
  simp [getUserRoute, deleteUserRoute, ensureCorrectUserOrAdmin]

/-- Claim C9: registration through `POST /users` always creates and returns
a user with `isAdmin = false`, whatever `isAdmin` the request body carried,
and two registration requests differing only in their `isAdmin` field have
identical outcomes. -/
theorem postUsers_forcesNonAdmin (body : RegisterBody) (users : List UserRow) :
    (∀ u, (postUsersRoute body users).2 = .ok u → u.isAdmin = false)
    ∧ (∀ u ∈ (postUsersRoute body users).1, u ∈ users ∨ u.isAdmin = false)
    ∧ (∀ b, postUsersRoute { body with isAdmin := b } users
        = postUsersRoute body users) := by
  refine ⟨?_, ?_, ?_⟩
  · intro u hu
    by_cases hdup : (users.any fun w => w.username == body.username) = true
    · simp [postUsersRoute, userRegister, hdup] at hu
    · simp [postUsersRoute, userRegister, hdup] at hu
      subst hu
      rfl
  · intro u hu
    by_cases hdup : (users.any fun w => w.username == body.username) = true
    · exact Or.inl (by simpa [postUsersRoute, userRegister, hdup] using hu)
    · simp [postUsersRoute, userRegister, hdup] at hu
      rcases hu with h | h
      · exact Or.inl h
      · right
        subst h
        rfl
  · intro b
    rfl

/-- Witness for C9: registering `regBodyAdminTrue` (which asks for
`isAdmin: true`) creates exactly `regCreatedUser` with `isAdmin = false`,
and changing the body's `isAdmin` to `false` gives the identical outcome. -/
theorem postUsers_forcesNonAdmin_witness :
    (postUsersRoute regBodyAdminTrue []).2 = .ok regCreatedUser
    ∧ regCreatedUser.isAdmin = false
    ∧ postUsersRoute { regBodyAdminTrue with isAdmin := some false } []
        = postUsersRoute regBodyAdminTrue [] :=
  ⟨by decide,
   (postUsers_forcesNonAdmin regBodyAdminTrue []).1 regCreatedUser (by decide),
   (postUsers_forcesNonAdmin regBodyAdminTrue []).2.2 (some false)⟩

/-- Claim C10: `Company.findAll` treats the falsy empty-string name filter
as absent — the result is the unfiltered-by-name result — whereas
`Job.findAll` applies a title predicate for every title that is not
undefined, so `title: ""` pushes the clause `title ILIKE $1` and the result
is exactly the rows with a non-null title (in id order). -/
theorem emptyString_filter_asymmetry (mn mx : Option Int)
    (db : List CompanyRow) (jdb : List JobRow) :
    companyFindAll { minEmployees := mn, maxEmployees := mx, name := some "" } db
      = companyFindAll { minEmployees := mn, maxEmployees := mx, name := none } db
    ∧ (jobFindAllBuild ⟨some "", none, none⟩).whereClauses = ["title ILIKE $1"]
    ∧ jobFindAll ⟨some "", none, none⟩ jdb
        = .ok (sortJobs (jdb.filter (fun r => r.title.isSome))) := by
  refine ⟨?_, ?_, ?_⟩
  · rw [companyFindAll, companyFindAll, companyFindAllBuild_emptyName]
  · decide
  · rw [jobFindAll_eq]
    congr 1
    rw [sortJobs, sortJobs]
    congr 1
    apply List.filter_congr
    intro r _
    have hpr : (jobFindAllBuild ⟨some "", none, none⟩).preds
        = [JobPred.titleILike ""] := by decide
    rw [hpr]
    match ht : r.title with
    | some t => simp [JobPred.holdsFor, ht, containsCI_empty]
    | none => simp [JobPred.holdsFor, ht]

/-- Witness for C5: an empty update on handle `c1` over a one-row database
fails with "No data", issues nothing and leaves the row in place. -/
theorem companyUpdate_emptyData_rejectedFirst_witness :
    companyUpdate "c1" [] [seedCompanyC1]
      = { events := [], db := [seedCompanyC1]
          result := .error (.badRequest "No data") } :=
  companyUpdate_emptyData_rejectedFirst "c1" [seedCompanyC1]

/-- Witness for C8: an anonymous request targeting `u1` gets the
Unauthenticated error on both guarded routes. -/
theorem userRoutes_unauthenticated_precedence_witness :
    getUserRoute none "u1" [] = .error (.unauthorized "Unauthorized")
    ∧ (deleteUserRoute none "u1" []).2 = .error (.unauthorized "Unauthorized") :=
  ⟨(userRoutes_unauthenticated_precedence "u1" []).1,
   (userRoutes_unauthenticated_precedence "u1" []).2.2.1⟩

/-- Witness for C10: over the seed jobs, `title: ""` keeps every row (all
titles are non-null), and an empty-string company name filter matches the
absent-name result. -/
theorem emptyString_filter_asymmetry_witness :
    companyFindAll ⟨none, none, some ""⟩ [seedCompanyC1]
      = companyFindAll ⟨none, none, none⟩ [seedCompanyC1]
    ∧ jobFindAll ⟨some "", none, none⟩ seedJobs
        = .ok (sortJobs (seedJobs.filter (fun r => r.title.isSome))) :=
  ⟨(emptyString_filter_asymmetry none none [seedCompanyC1] seedJobs).1,
   (emptyString_filter_asymmetry none none [seedCompanyC1] seedJobs).2.2⟩
